import Mathlib

/-!
Verification of the audiocraft compression-model core
(`audiocraft/models/encodec.py`): the ternary radix codec used by
`SQCodec`, the codebook/cardinality configuration of each backend, the
scale handling of `decode`, and the `InterleaveStereoCompressionModel`
wrapper.
-/

/-! ## RadixCodec: ternary pack / unpack

`SQCodec.encode` calls `ternary_matrix_to_decimal` and
`SQCodec.decode_latent` calls `decimal_to_ternary_matrix`; both helpers
live in `audiocraft/models/utils.py`, which is not part of the sources
at hand, so they are modelled from the spec. -/

/-- Modelled from the spec: `ternary_matrix_to_decimal` applied to one
digit group. The digit sequence is read as a base-3 positional number
with the most-significant digit first; the output is a single
non-negative integer in `[0, 3^D)`. -/
def ternary_pack (v : List Nat) : Nat :=
  v.foldl (fun acc d => acc * 3 + d) 0

/-- Modelled from the spec: the digit-production loop of
`decimal_to_ternary_matrix` on one code: repeatedly take `code mod 3`
then integer-divide by 3, producing digits least-significant first.
Producing exactly `D` digits left-pads with zero digits when the code
needs fewer. -/
def ternary_unpack_digits : Nat → Nat → List Nat
  | 0, _ => []
  | D + 1, code => code % 3 :: ternary_unpack_digits D (code / 3)

/-- Modelled from the spec: `decimal_to_ternary_matrix` on one code with
group length `D`: the least-significant-first digits are reversed to
match the packing order; a code outside `[0, 3^D)` is an `OutOfRange`
error, modelled as `none`. -/
def ternary_unpack (code D : Nat) : Option (List Nat) :=
  if code < 3 ^ D then some (ternary_unpack_digits D code).reverse else none

theorem ternary_pack_append (v : List Nat) (d : Nat) :
    ternary_pack (v ++ [d]) = ternary_pack v * 3 + d := by
  simp [ternary_pack, List.foldl_append]

theorem ternary_pack_lt (v : List Nat) (h : ∀ d ∈ v, d < 3) :
    ternary_pack v < 3 ^ v.length := by
  induction v using List.reverseRecOn with
  | nil => simp [ternary_pack]
  | append_singleton l d ih =>
    have hd : d < 3 := h d (by simp)
    have hl : ternary_pack l < 3 ^ l.length := ih fun x hx => h x (by simp [hx])
    rw [ternary_pack_append]
    simp only [List.length_append, List.length_cons, List.length_nil, pow_succ]
    omega

theorem ternary_unpack_digits_pack (v : List Nat) (h : ∀ d ∈ v, d < 3) :
    ternary_unpack_digits v.length (ternary_pack v) = v.reverse := by
  induction v using List.reverseRecOn with
  | nil => rfl
  | append_singleton l d ih =>
    have hd : d < 3 := h d (by simp)
    have hmod : (ternary_pack l * 3 + d) % 3 = d := by omega
    have hdiv : (ternary_pack l * 3 + d) / 3 = ternary_pack l := by omega
    rw [ternary_pack_append, List.length_append]
    simp only [List.length_cons, List.length_nil, Nat.add_eq]
    rw [show l.length + (0 + 1) = l.length + 1 by omega]
    rw [ternary_unpack_digits, hmod, hdiv, ih fun x hx => h x (by simp [hx])]
    simp

/-- C1: for every digit vector `v` of length `D` with each digit in
`{0,1,2}`, unpacking the packed code recovers `v` exactly:
`unpack(pack(v), D) = v`. -/
theorem sqcodec_ternary_roundtrip (v : List Nat) (D : Nat)
    (hD : v.length = D) (h : ∀ d ∈ v, d < 3) :
    ternary_unpack (ternary_pack v) D = some v := by
  subst hD
  rw [ternary_unpack, if_pos (ternary_pack_lt v h), ternary_unpack_digits_pack v h]
  simp

/-- Witness for C1 at the concrete digit group `[2,0,1]` with `D = 3`. -/
theorem sqcodec_ternary_roundtrip_witness :
    ternary_unpack (ternary_pack [2, 0, 1]) 3 = some [2, 0, 1] :=
  sqcodec_ternary_roundtrip [2, 0, 1] 3 (by decide) (by decide)

/-- C5: with group length `D = 4` and most-significant-first ordering,
`pack [1,0,2,1] = 34` and `unpack 34 4 = [1,0,2,1]`. -/
theorem sqcodec_ternary_concrete :
    ternary_pack [1, 0, 2, 1] = 34 ∧ ternary_unpack 34 4 = some [1, 0, 2, 1] := by
  decide

/-! ## InterleaveStereoCompressionModel

Code tensors `[B, K, T]` are embedded as integer-valued index maps
`batch → codebook → time → ℤ`; the einops `rearrange` calls of
`encode` and `get_left_right_codes` become the corresponding index
transformations. -/

def CodeTensor := Nat → Nat → Nat → Int

/-- `torch.stack([c0, c1], dim=0)`: channel index 0 selects the first
tensor, channel index 1 the second. -/
def stackChannels (c0 c1 : CodeTensor) : Nat → CodeTensor :=
  fun c => if c = 0 then c0 else c1

/-- The wrapped mono backend, reduced to the attributes the wrapper
reads (`num_codebooks`, `frame_rate`, `channels`); its neural encode
and decode are external collaborators. -/
structure MonoModel where
  num_codebooks : Nat
  frame_rate : ℚ
  channels : Nat

/-- `InterleaveStereoCompressionModel.__init__`: stores the wrapped
model and the `per_timestep` flag; asserts the wrapped model is
monophonic. -/
structure InterleaveStereoCompressionModel where
  model : MonoModel
  per_timestep : Bool
  channels_ok : model.channels = 1

/-- `num_codebooks` property: `model.num_codebooks if per_timestep else
model.num_codebooks * 2`. -/
def InterleaveStereoCompressionModel.num_codebooks
    (m : InterleaveStereoCompressionModel) : Nat :=
  if m.per_timestep then m.model.num_codebooks else m.model.num_codebooks * 2

/-- `num_virtual_steps` property: `2 if per_timestep else 1`. -/
def InterleaveStereoCompressionModel.num_virtual_steps
    (m : InterleaveStereoCompressionModel) : Nat :=
  if m.per_timestep then 2 else 1

/-- `frame_rate` property: `model.frame_rate * num_virtual_steps`. -/
def InterleaveStereoCompressionModel.frame_rate
    (m : InterleaveStereoCompressionModel) : ℚ :=
  m.model.frame_rate * m.num_virtual_steps

/-- The interleaving step of `encode` on the stacked per-channel code
tensors: `rearrange(indices, 'c b k t -> b k (t c)', c=2)` when
`per_timestep`, else `rearrange(indices, 'c b k t -> b (k c) t', c=2)`.
The composite index `(x c)` decomposes as `x * 2 + c`. -/
def InterleaveStereoCompressionModel.encode_codes
    (m : InterleaveStereoCompressionModel) (c0 c1 : CodeTensor) : CodeTensor :=
  if m.per_timestep then
    fun b k t => stackChannels c0 c1 (t % 2) b k (t / 2)
  else
    fun b k t => stackChannels c0 c1 (k % 2) b (k / 2) t

/-- `get_left_right_codes`: `rearrange(codes, 'b k (t c) -> c b k t', c=2)`
when `per_timestep`, else `rearrange(codes, 'b (k c) t -> c b k t', c=2)`,
returning `codes[0], codes[1]`. -/
def InterleaveStereoCompressionModel.get_left_right_codes
    (m : InterleaveStereoCompressionModel) (codes : CodeTensor) :
    CodeTensor × CodeTensor :=
  if m.per_timestep then
    (fun b k t => codes b k (t * 2), fun b k t => codes b k (t * 2 + 1))
  else
    (fun b k t => codes b (k * 2) t, fun b k t => codes b (k * 2 + 1) t)

/-- The scale branch of `encode`:
`torch.stack([scales_c0, scales_c1], dim=1)`. A per-channel scale from
the wrapped backend has shape `[B, 1]`, one rational per batch item
(modelled as a list over the batch axis); stacking at `dim=1` yields
rows `[scales_c0[b], scales_c1[b]]`, i.e. shape `[B, 2, 1]`. -/
def stereoEncodeScales (s0 s1 : List ℚ) : List (List ℚ) :=
  List.zipWith (fun a b => [a, b]) s0 s1

inductive StereoDecodeError
  | shapeMismatch
  | scaleShapeMismatch
  | indexError
deriving DecidableEq

/-- What `InterleaveStereoCompressionModel.decode` hands to the wrapped
backend for one channel: the de-interleaved code tensor and the scale
slice. -/
def ChannelInput := CodeTensor × Option (List ℚ)

/-- `InterleaveStereoCompressionModel.decode` up to the two external
`self.model.decode` calls: unpack `B, K, T = codes.shape`; assert
`T % num_virtual_steps == 0` and `K == num_codebooks` (failures are the
`ShapeMismatch` errors); when a scale is given, assert
`scale.size(0) == B and scale.size(1) == 2`, then slice
`scale_c0 = scale[0, ...]` and `scale_c1 = scale[1, ...]` along the
first axis (an out-of-bounds index is an `IndexError`); finally
de-interleave with `get_left_right_codes` and return the two
per-channel inputs for the wrapped backend. -/
def InterleaveStereoCompressionModel.decode
    (m : InterleaveStereoCompressionModel) (B K T : Nat) (codes : CodeTensor)
    (scale : Option (List (List ℚ))) :
    Except StereoDecodeError (ChannelInput × ChannelInput) :=
  if T % m.num_virtual_steps ≠ 0 then .error .shapeMismatch
  else if K ≠ m.num_codebooks then .error .shapeMismatch
  else
    match scale with
    | none =>
      let lr := m.get_left_right_codes codes
      .ok ((lr.1, none), (lr.2, none))
    | some s =>
      if s.length = B ∧ s.all (fun r => r.length = 2) then
        match s[0]?, s[1]? with
        | some r0, some r1 =>
          let lr := m.get_left_right_codes codes
          .ok ((lr.1, some r0), (lr.2, some r1))
        | _, _ => .error .indexError
      else .error .scaleShapeMismatch

/-- C2: for every pair of per-channel code tensors, interleaving them in
the stereo wrapper's `encode` (codebook axis when `per_timestep` is
false, time axis when it is true) followed by `get_left_right_codes`
recovers the two original tensors exactly. -/
theorem stereo_interleave_roundtrip (m : InterleaveStereoCompressionModel)
    (c0 c1 : CodeTensor) :
    m.get_left_right_codes (m.encode_codes c0 c1) = (c0, c1) := by
  unfold InterleaveStereoCompressionModel.get_left_right_codes
    InterleaveStereoCompressionModel.encode_codes
  cases m.per_timestep
  · simp only [Bool.false_eq_true, if_false, Prod.mk.injEq]
    constructor
    · funext b k t
      have h1 : k * 2 % 2 = 0 := by omega
      have h2 : k * 2 / 2 = k := by omega
      simp [stackChannels, h1, h2]
    · funext b k t
      have h1 : (k * 2 + 1) % 2 = 1 := by omega
      have h2 : (k * 2 + 1) / 2 = k := by omega
      simp [stackChannels, h1, h2]
  · simp only [if_true, Prod.mk.injEq]
    constructor
    · funext b k t
      have h1 : t * 2 % 2 = 0 := by omega
      have h2 : t * 2 / 2 = t := by omega
      simp [stackChannels, h1, h2]
    · funext b k t
      have h1 : (t * 2 + 1) % 2 = 1 := by omega
      have h2 : (t * 2 + 1) / 2 = t := by omega
      simp [stackChannels, h1, h2]

/-- C6: a stereo wrapper around a mono backend with `K` active codebooks
and frame rate `F` reports `num_codebooks = 2K` and `frame_rate = F` in
codebook-axis mode (`per_timestep = false`), and `num_codebooks = K`
with `frame_rate = 2F` in time-axis mode (`per_timestep = true`). -/
theorem stereo_reported_codebooks_framerate (inner : MonoModel)
    (h : inner.channels = 1) :
    (InterleaveStereoCompressionModel.mk inner false h).num_codebooks
        = 2 * inner.num_codebooks
    ∧ (InterleaveStereoCompressionModel.mk inner false h).frame_rate
        = inner.frame_rate
    ∧ (InterleaveStereoCompressionModel.mk inner true h).num_codebooks
        = inner.num_codebooks
    ∧ (InterleaveStereoCompressionModel.mk inner true h).frame_rate
        = 2 * inner.frame_rate := by
  refine ⟨?_, ?_, ?_, ?_⟩ <;>
    simp [InterleaveStereoCompressionModel.num_codebooks,
      InterleaveStereoCompressionModel.frame_rate,
      InterleaveStereoCompressionModel.num_virtual_steps]
  · omega
  · ring

/-- Witness for C6 at a concrete mono backend with 3 codebooks and
frame rate 50. -/
theorem stereo_reported_codebooks_framerate_witness :
    (InterleaveStereoCompressionModel.mk ⟨3, 50, 1⟩ false rfl).num_codebooks
        = 2 * (MonoModel.mk 3 50 1).num_codebooks
    ∧ (InterleaveStereoCompressionModel.mk ⟨3, 50, 1⟩ false rfl).frame_rate
        = (MonoModel.mk 3 50 1).frame_rate
    ∧ (InterleaveStereoCompressionModel.mk ⟨3, 50, 1⟩ true rfl).num_codebooks
        = (MonoModel.mk 3 50 1).num_codebooks
    ∧ (InterleaveStereoCompressionModel.mk ⟨3, 50, 1⟩ true rfl).frame_rate
        = 2 * (MonoModel.mk 3 50 1).frame_rate :=
  stereo_reported_codebooks_framerate ⟨3, 50, 1⟩ rfl

/-- C7: `decode` fails with `ShapeMismatch` exactly when the time axis
is not a multiple of the number of virtual steps or the codebook axis
differs from the reported interleaved codebook count; when both checks
pass (and no scale is given) decode proceeds to the de-interleaved
per-channel inputs. -/
theorem stereo_decode_shape_validation (m : InterleaveStereoCompressionModel)
    (B K T : Nat) (codes : CodeTensor) (scale : Option (List (List ℚ))) :
    (m.decode B K T codes scale = .error .shapeMismatch
      ↔ T % m.num_virtual_steps ≠ 0 ∨ K ≠ m.num_codebooks)
    ∧ (T % m.num_virtual_steps = 0 → K = m.num_codebooks →
        m.decode B K T codes none
          = .ok (((m.get_left_right_codes codes).1, none),
                 ((m.get_left_right_codes codes).2, none))) := by
  constructor
  · constructor
    · intro he
      by_contra hc
      push_neg at hc
      obtain ⟨h1, h2⟩ := hc
      unfold InterleaveStereoCompressionModel.decode at he
      simp only [h1, h2, ne_eq, not_true_eq_false, if_false] at he
      cases scale with
      | none => simp at he
      | some s =>
        split at he
        · simp at he
        · split at he
          · split at he <;> simp at he
          · simp at he
    · intro hor
      unfold InterleaveStereoCompressionModel.decode
      rcases hor with h1 | h2
      · simp [h1]
      · by_cases h1 : T % m.num_virtual_steps = 0
        · simp [h1, h2]
        · simp [h1]
  · intro h1 h2
    unfold InterleaveStereoCompressionModel.decode
    simp [h1, h2]

/-- Witness for C7 at a concrete wrapper (codebook-axis mode over a
1-codebook mono backend) with a valid `[1, 2, 3]` code shape. -/
theorem stereo_decode_shape_validation_witness :
    (InterleaveStereoCompressionModel.mk ⟨1, 50, 1⟩ false rfl).decode 1 2 3
        (fun _ _ _ => 0) none
      = .ok ((((InterleaveStereoCompressionModel.mk ⟨1, 50, 1⟩ false rfl).get_left_right_codes
                (fun _ _ _ => 0)).1, none),
             (((InterleaveStereoCompressionModel.mk ⟨1, 50, 1⟩ false rfl).get_left_right_codes
                (fun _ _ _ => 0)).2, none)) :=
  (stereo_decode_shape_validation (InterleaveStereoCompressionModel.mk ⟨1, 50, 1⟩ false rfl)
    1 2 3 (fun _ _ _ => 0) none).2 (by decide) (by decide)

/-- C4 (failing input): for a stereo batch of size `B = 1`, `encode`
stacks the two per-channel scales at axis 1, giving `[[s_left, s_right]]`
(shape `[1, 2, 1]`); `decode` then passes its own shape assertion but
slices `scale[0]` and `scale[1]` along axis 0 — the batch axis — so the
second slice is out of bounds and decode fails instead of recovering the
per-channel scales. -/
theorem stereo_scale_split_bug :
    stereoEncodeScales [2] [3] = [[2, 3]]
    ∧ (InterleaveStereoCompressionModel.mk ⟨1, 50, 1⟩ true rfl).decode 1 1 2
        (fun _ _ _ => 0) (some (stereoEncodeScales [2] [3]))
      = .error .indexError :=
  ⟨rfl, rfl⟩

/-! ## Codebook configuration of the backends

Each backend keeps its configuration in plain attributes; the `assert`
statements of the setters are modelled as `Option`-valued updates
(`none` = the `InvalidCodebookCount` failure). Counts are `Int`, as
Python integers are unbounded and signed. -/

/-- `DAC`: `n_quantizers` is the active count; `model.n_codebooks` (the
wrapped descript codec's codebook count) is fixed. -/
structure DACState where
  n_codebooks : Int
  n_quantizers : Int
deriving DecidableEq

def DACState.total_codebooks (st : DACState) : Int := st.n_codebooks

/-- `DAC.set_num_codebooks`: `assert n >= 1; assert n <= self.total_codebooks;
self.n_quantizers = n`. -/
def DACState.set_num_codebooks (st : DACState) (n : Int) : Option DACState :=
  if 1 ≤ n then
    if n ≤ st.total_codebooks then some { st with n_quantizers := n } else none
  else none

/-- `SQCodec` configuration attributes set in `__init__`. -/
structure SQState where
  n_codebook : Int
  dim_codebook : Int
  emb_dim : Nat
  use_ternary : Bool
deriving DecidableEq

def SQState.total_codebooks (st : SQState) : Int := st.n_codebook

def SQState.num_codebooks (st : SQState) : Int := st.n_codebook

def SQState.cardinality (st : SQState) : Int := st.dim_codebook

/-- `SQCodec.set_num_codebooks`: `assert n >= 1; self.n_codebook = n` —
note there is no upper-bound check. -/
def SQState.set_num_codebooks (st : SQState) (n : Int) : Option SQState :=
  if 1 ≤ n then some { st with n_codebook := n } else none

/-- `SQCodec.set_cardinality`: `assert n >= 1; self.dim_codebook = n`. -/
def SQState.set_cardinality (st : SQState) (n : Int) : Option SQState :=
  if 1 ≤ n then some { st with dim_codebook := n } else none

/-- The `SQCodec.__init__` defaults: `dim_codebook=19683`, `n_codebook=4`,
`emb_dim=9`, `use_ternary=False`. -/
def sqcodecDefault : SQState :=
  { n_codebook := 4, dim_codebook := 19683, emb_dim := 9, use_ternary := false }

/-- `HFEncodecCompressionModel`: the discrete list of codebook counts
derived from the configured target bandwidths, plus the active count. -/
structure HFEncodecState where
  possible_num_codebooks : List Int
  num_codebooks : Int
deriving DecidableEq

def HFEncodecState.total_codebooks (st : HFEncodecState) : Option Int :=
  st.possible_num_codebooks.max?

/-- `HFEncodecCompressionModel.set_num_codebooks`: raises `ValueError`
(message enumerating `possible_num_codebooks`) unless
`n in self.possible_num_codebooks`. -/
def HFEncodecState.set_num_codebooks (st : HFEncodecState) (n : Int) :
    Option HFEncodecState :=
  if n ∈ st.possible_num_codebooks then some { st with num_codebooks := n }
  else none

/-- `WavTokenizer`: a single codebook. -/
structure WavTokenizerState where
  n_quantizers : Int
deriving DecidableEq

def WavTokenizerState.total_codebooks (_ : WavTokenizerState) : Int := 1

/-- `WavTokenizer.set_num_codebooks`: `assert n == 1`. -/
def WavTokenizerState.set_num_codebooks (st : WavTokenizerState) (n : Int) :
    Option WavTokenizerState :=
  if n = 1 then some { st with n_quantizers := n } else none

/-- C3 (counterexample): `SQCodec.set_num_codebooks 7` succeeds on the
default instance even though `7 > total_codebooks = 4`, so acceptance is
not `1 ≤ n ≤ total_codebooks`. -/
theorem sqcodec_set_num_codebooks_no_upper_bound :
    (sqcodecDefault.set_num_codebooks 7).isSome = true
    ∧ ¬(7 ≤ sqcodecDefault.total_codebooks) := by
  decide

/-- C3 (amended): `set_num_codebooks n` succeeds exactly when
`1 ≤ n ≤ total_codebooks` for `DAC`, when `n` is in the discrete allowed
list for the HF backend, and when `n = 1` for `WavTokenizer`; `SQCodec`
however accepts every `n ≥ 1` with no upper bound. -/
theorem set_num_codebooks_acceptance :
    (∀ (st : DACState) (n : Int),
      (st.set_num_codebooks n).isSome ↔ 1 ≤ n ∧ n ≤ st.total_codebooks)
    ∧ (∀ (st : SQState) (n : Int),
      (st.set_num_codebooks n).isSome ↔ 1 ≤ n)
    ∧ (∀ (st : HFEncodecState) (n : Int),
      (st.set_num_codebooks n).isSome ↔ n ∈ st.possible_num_codebooks)
    ∧ (∀ (st : WavTokenizerState) (n : Int),
      (st.set_num_codebooks n).isSome ↔ n = 1) := by
  refine ⟨fun st n => ?_, fun st n => ?_, fun st n => ?_, fun st n => ?_⟩
  · unfold DACState.set_num_codebooks
    split
    · split <;> simp_all
    · simp_all
  · unfold SQState.set_num_codebooks
    split <;> simp_all
  · unfold HFEncodecState.set_num_codebooks
    split <;> simp_all
  · unfold WavTokenizerState.set_num_codebooks
    split <;> simp_all

/-- C8 (counterexample): `set_cardinality 5` on the default `SQCodec`
instance changes the value reported by `cardinality` from 19683 to 5, so
the cardinality is not immutable after construction. -/
theorem sqcodec_cardinality_mutable :
    SQState.set_cardinality sqcodecDefault 5
        = some { sqcodecDefault with dim_codebook := 5 }
    ∧ SQState.cardinality { sqcodecDefault with dim_codebook := 5 }
        ≠ SQState.cardinality sqcodecDefault := by
  decide

/-- C8 (amended): at construction the ternary backend's cardinality is
`3 ^ emb_dim` (`19683 = 3^9`), and `set_num_codebooks` leaves it
untouched, but `set_cardinality n` (any `n ≥ 1`) mutates it. -/
theorem sqcodec_cardinality_lifecycle (st st2 : SQState) (n : Int)
    (h1 : 1 ≤ n) (h2 : st.set_num_codebooks n = some st2) :
    sqcodecDefault.cardinality = 3 ^ sqcodecDefault.emb_dim
    ∧ st2.cardinality = st.cardinality
    ∧ (st.set_cardinality n).map SQState.cardinality = some n := by
  refine ⟨by decide, ?_, ?_⟩
  · unfold SQState.set_num_codebooks at h2
    rw [if_pos h1] at h2
    cases h2
    rfl
  · unfold SQState.set_cardinality
    rw [if_pos h1]
    rfl

/-- Witness for C8 (amended) at the default instance with `n = 2`. -/
theorem sqcodec_cardinality_lifecycle_witness :
    sqcodecDefault.cardinality = 3 ^ sqcodecDefault.emb_dim
    ∧ SQState.cardinality { sqcodecDefault with n_codebook := 2 }
        = sqcodecDefault.cardinality
    ∧ (sqcodecDefault.set_cardinality 2).map SQState.cardinality = some 2 :=
  sqcodec_cardinality_lifecycle sqcodecDefault
    { sqcodecDefault with n_codebook := 2 } 2 (by decide) (by decide)

/-! ## Scale handling in decode

A per-batch-item scale factor is modelled as a rational; a failed
`assert` is `none`. The neural decoder networks are external, so the
observable of each `decode` is whether the scale check passes and what
denormalization is applied. -/

/-- `EncodecModel`, reduced to the one attribute its scale handling
reads. -/
structure EncModelState where
  renormalize : Bool
deriving DecidableEq

/-- The scale produced by `EncodecModel.preprocess` for one batch item
of volume `v` (the root-mean-square of the mono mix, taken here as an
abstract non-negative input): `1e-8 + volume` when renormalizing, else
`None`. -/
def EncModelState.preprocess_scale (m : EncModelState) (volume : ℚ) : Option ℚ :=
  if m.renormalize then some (1 / 100000000 + volume) else none

/-- `EncodecModel.postprocess` on one batch item: `if scale is not None:
assert self.renormalize; x = x * scale`; an absent scale leaves `x`
unchanged. -/
def EncModelState.postprocess (m : EncModelState) (x : ℚ) (scale : Option ℚ) :
    Option ℚ :=
  match scale with
  | some s => if m.renormalize then some (x * s) else none
  | none => some x

/-- The scale check of `DAC.decode`: `assert scale is None`, then the
external `self.model.decode(z_q)` runs. -/
def DACState.decode_scale_check (_ : DACState) (scale : Option ℚ) : Option Unit :=
  match scale with
  | none => some ()
  | some _ => none

/-- The scale check of `SQCodec.decode`: `assert scale == None` (a
present tensor compares unequal to `None`), then the external
`self.scalar_codec.decode` runs. -/
def SQState.decode_scale_check (_ : SQState) (scale : Option ℚ) : Option Unit :=
  match scale with
  | none => some ()
  | some _ => none

/-- C9 (counterexample): `EncodecModel` with `renormalize = True` always
produces a scale on encode, yet its decode path accepts an absent scale:
`postprocess x None` succeeds and returns `x` un-denormalized instead of
rejecting the call. -/
theorem encodec_decode_accepts_missing_scale :
    (EncModelState.preprocess_scale ⟨true⟩ 1).isSome = true
    ∧ EncModelState.postprocess ⟨true⟩ 5 none = some 5 := by
  decide

/-- C9 (amended): a present scale is rejected by every backend that
never produces one (`DAC`, `SQCodec`, and `EncodecModel` with
`renormalize = False`, which encodes with scale `None`); an absent
scale, however, is never rejected — `EncodecModel` with
`renormalize = True` silently skips denormalization. -/
theorem decode_scale_consistency :
    (∀ (st : DACState) (s : ℚ), st.decode_scale_check (some s) = none)
    ∧ (∀ (st : SQState) (s : ℚ), st.decode_scale_check (some s) = none)
    ∧ (∀ x s : ℚ, EncModelState.postprocess ⟨false⟩ x (some s) = none)
    ∧ (∀ v : ℚ, EncModelState.preprocess_scale ⟨false⟩ v = none)
    ∧ (∀ (m : EncModelState) (x : ℚ), m.postprocess x none = some x) := by
  refine ⟨fun st s => rfl, fun st s => rfl, fun x s => rfl, fun v => rfl,
    fun m x => rfl⟩

/-! ## SQCodec.encode_embedding

The body of `encode_embedding` reads the name `in_tokens` inside its
loop; that name is bound nowhere — not among the function's parameters
and locals, and not at module level in `encodec.py` — so Python raises
`NameError` on the first iteration. The name environment below lists
every binding visible at that expression, taken from the source. -/

def encodeEmbeddingScope : List String :=
  ["self", "codes", "in_embs", "i",
   "sys", "ABC", "abstractmethod", "os", "logging", "math", "Path", "tp",
   "rearrange", "np", "torch", "nn", "HFEncodecModel", "qt", "checkpoint",
   "ScalarModel", "decimal_to_ternary_matrix", "ternary_matrix_to_decimal",
   "logger", "CompressionModel", "EncodecModel", "DAC", "SQCodec",
   "WavTokenizer", "HFEncodecCompressionModel",
   "InterleaveStereoCompressionModel"]

def lookupName (x : String) : Option Unit :=
  if x ∈ encodeEmbeddingScope then some () else none

/-- One iteration of the `for i in range(self.num_codebooks)` loop: the
body evaluates `decimal_to_ternary_matrix(in_tokens[i, :, :], D=self.emb_dim) - 1`,
whose first step resolves the name `in_tokens`. -/
def encodeEmbeddingLoopBody (_i : Nat) : Except String Unit :=
  match lookupName "in_tokens" with
  | some _ => .ok ()
  | none => .error "NameError: name in_tokens is not defined"

def encodeEmbeddingLoop : List Nat → Except String Unit
  | [] => .ok ()
  | i :: rest =>
    match encodeEmbeddingLoopBody i with
    | .ok _ => encodeEmbeddingLoop rest
    | .error e => .error e

/-- `SQCodec.encode_embedding` up to its external tensor operations: run
the loop over `range(self.num_codebooks)`; afterwards
`torch.stack(in_embs, dim=0)` fails on an empty list, so a zero-codebook
state cannot return either. -/
def SQState.encode_embedding (st : SQState) (_codes : CodeTensor) :
    Except String Unit :=
  match encodeEmbeddingLoop (List.range st.n_codebook.toNat) with
  | .error e => .error e
  | .ok _ =>
    if st.n_codebook.toNat = 0 then
      .error "RuntimeError: stack expects a non-empty TensorList"
    else .ok ()

/-- C10: for every state and input code tensor, `SQCodec.encode_embedding`
raises an error before returning: its loop body reads `in_tokens`, which
is never defined, so the method can never produce an embedding tensor. -/
theorem sqcodec_encode_embedding_always_raises (st : SQState)
    (codes : CodeTensor) :
    ∃ e, st.encode_embedding codes = .error e := by
  unfold SQState.encode_embedding
  cases hk : st.n_codebook.toNat with
  | zero => exact ⟨_, rfl⟩
  | succ m =>
    rw [List.range_succ_eq_map]
    exact ⟨_, rfl⟩
